import Mathlib

/-!
Shallow embedding of the HemoDrop Detector backend (src/backend/main.py):
data model, classifier, alert registry, connection manager, the manual
reading-submission endpoint and the background monitoring cycle, together
with theorems checking the specification's claims against it.

Conventions of the embedding:
* Python floats (blood loss, rates) are modelled as rationals; all the
  comparisons in the source are order comparisons against integer
  thresholds, for which rationals are faithful.
* Timestamps and the unix clock are modelled as integers (seconds).
* Python dicts keyed by strings are modelled as association lists with
  dict-assignment semantics (replace if present, else append).
* Raising an exception in a helper is modelled with Except / Option;
  the try/except structure of the background loop is modelled explicitly.
-/

namespace HemoDrop

/-- The five hemorrhage severity levels, in the definition order of the
Python enum HemorrhageLevel (Normal, Minor, Moderate, Major, Critical). -/
inductive HemorrhageLevel where
  | normal
  | minor
  | moderate
  | major
  | critical
  deriving DecidableEq, Repr

/-- The underlying string value of each HemorrhageLevel member, exactly as
in the source (class HemorrhageLevel(str, Enum)). -/
def HemorrhageLevel.value : HemorrhageLevel → String
  | .normal => "normal"
  | .minor => "minor"
  | .moderate => "moderate"
  | .major => "major"
  | .critical => "critical"

/-- Ordinal rank of a severity level under the clinical ordering
Normal < Minor < Moderate < Major < Critical. -/
def HemorrhageLevel.rank : HemorrhageLevel → Nat
  | .normal => 0
  | .minor => 1
  | .moderate => 2
  | .major => 3
  | .critical => 4

/-- Alert urgency levels (Python enum AlertType). -/
inductive AlertType where
  | info
  | warning
  | critical
  | emergency
  deriving DecidableEq, Repr

/-- Python string less-than on lists of characters: lexicographic by code
point, shorter prefix is smaller. -/
def charListLt : List Char → List Char → Bool
  | _, [] => false
  | [], _ :: _ => true
  | a :: as, b :: bs => a < b || (a = b && charListLt as bs)

/-- Python string comparison a < b (lexicographic on code points). -/
def pyStrLt (a b : String) : Bool :=
  charListLt a.data b.data

/-- Python string comparison a > b. -/
def pyStrGt (a b : String) : Bool :=
  pyStrLt b a

/-- Blood loss thresholds in mL (dataclass HemorrhageThresholds). -/
def NORMAL_MAX : ℚ := 100
def MINOR_MAX : ℚ := 250
def MODERATE_MAX : ℚ := 500
def MAJOR_MAX : ℚ := 1000

/-- A blood loss reading (pydantic model BloodLossReading); only the fields
the monitoring logic reads are carried. -/
structure BloodLossReading where
  patient_id : String
  timestamp : ℤ
  blood_loss_ml : ℚ
  rate_ml_per_min : ℚ
  deriving DecidableEq, Repr

/-- An alert (pydantic model AlertMessage). -/
structure AlertMessage where
  alert_id : String
  patient_id : String
  alert_type : AlertType
  message : String
  hemorrhage_level : HemorrhageLevel
  blood_loss_ml : ℚ
  timestamp : ℤ
  acknowledged : Bool
  deriving DecidableEq, Repr

/-- A monitoring session (pydantic model MonitoringSession); only the
fields the background cycle touches are carried. -/
structure MonitoringSession where
  session_id : String
  patient_id : String
  is_active : Bool
  total_readings : Nat
  max_blood_loss_ml : ℚ
  max_hemorrhage_level : HemorrhageLevel
  deriving DecidableEq, Repr

/-- HemorrhageClassifier.classify_blood_loss: inclusive-upper threshold
lookup from cumulative blood loss to a severity level. -/
def classify_blood_loss (blood_loss_ml : ℚ) : HemorrhageLevel :=
  if blood_loss_ml ≤ NORMAL_MAX then .normal
  else if blood_loss_ml ≤ MINOR_MAX then .minor
  else if blood_loss_ml ≤ MODERATE_MAX then .moderate
  else if blood_loss_ml ≤ MAJOR_MAX then .major
  else .critical

/-- HemorrhageClassifier.assess_bleeding_rate. -/
def assess_bleeding_rate (rate_ml_per_min : ℚ) (current_level : HemorrhageLevel) :
    AlertType :=
  if 50 < rate_ml_per_min then .emergency
  else if 20 < rate_ml_per_min ∧
      (current_level = .moderate ∨ current_level = .major) then .critical
  else if 10 < rate_ml_per_min then .warning
  else .info

/-- The alert-type computation inside should_trigger_alert: the rate-based
assessment, overridden to EMERGENCY when at least 3 previous readings exist
and the blood-loss increase from the first point of the 4-point trend
window to the current reading, divided by the fixed 15-minute window,
exceeds 15 mL/min. -/
def alert_type_for (reading : BloodLossReading)
    (previous_readings : List BloodLossReading) : AlertType :=
  let current_level := classify_blood_loss reading.blood_loss_ml
  let base := assess_bleeding_rate reading.rate_ml_per_min current_level
  if 3 ≤ previous_readings.length then
    let recent_readings :=
      previous_readings.drop (previous_readings.length - 3)
    let blood_loss_trend :=
      recent_readings.map (fun r => r.blood_loss_ml) ++ [reading.blood_loss_ml]
    if 2 ≤ blood_loss_trend.length then
      let rate_of_increase :=
        (blood_loss_trend.getLastD 0 - blood_loss_trend.headD 0) / 15
      if 15 < rate_of_increase then .emergency else base
    else base
  else base

/-- The canned per-level alert message table of should_trigger_alert. -/
def alert_message_text : HemorrhageLevel → String
  | .normal => "Normal postpartum bleeding"
  | .minor => "Minor hemorrhage detected - monitor closely"
  | .moderate => "Moderate hemorrhage - consider intervention"
  | .major => "MAJOR HEMORRHAGE - immediate intervention required"
  | .critical => "CRITICAL HEMORRHAGE - emergency response needed"

/-- The alert-id format string of should_trigger_alert:
alert_<patient_id>_<int(time.time())>.  The clock is passed in as the
integer number of unix seconds at generation time. -/
def mk_alert_id (patient_id : String) (now_seconds : ℤ) : String :=
  "alert_" ++ patient_id ++ "_" ++ toString now_seconds

/-- HemorrhageClassifier.should_trigger_alert: classify the reading,
assess the rate, apply the escalation override, and emit an alert when the
level is not NORMAL or the alert type is CRITICAL or EMERGENCY.
now_seconds models the int(time.time()) call used for the alert id. -/
def should_trigger_alert (now_seconds : ℤ) (reading : BloodLossReading)
    (previous_readings : List BloodLossReading) : Option AlertMessage :=
  let current_level := classify_blood_loss reading.blood_loss_ml
  let alert_type := alert_type_for reading previous_readings
  if current_level ≠ HemorrhageLevel.normal ∨
      alert_type = AlertType.critical ∨ alert_type = AlertType.emergency then
    some
      ⟨mk_alert_id reading.patient_id now_seconds, reading.patient_id,
        alert_type, alert_message_text current_level, current_level,
        reading.blood_loss_ml, reading.timestamp, false⟩
  else none

/-- Errors surfaced to API callers (fastapi HTTPException); only the 404
NotFound case is relevant to the embedded endpoints. -/
inductive ApiError where
  | notFound (detail : String)
  deriving DecidableEq, Repr

/-- Python dict assignment d[k] = v on a string-keyed dict modelled as an
association list: replace the binding if the key is present, else append. -/
def dict_set {α : Type} (d : List (String × α)) (k : String) (v : α) :
    List (String × α) :=
  if d.any (fun p => p.1 == k) then
    d.map (fun p => if p.1 == k then (k, v) else p)
  else d ++ [(k, v)]

/-- Python dict lookup d.get(k, dflt). -/
def dict_get {α : Type} (d : List (String × α)) (k : String) (dflt : α) : α :=
  match d.find? (fun p => p.1 == k) with
  | some p => p.2
  | none => dflt

/-- Setting the acknowledged flag of an alert to True. -/
def set_acknowledged (a : AlertMessage) : AlertMessage :=
  ⟨a.alert_id, a.patient_id, a.alert_type, a.message, a.hemorrhage_level,
    a.blood_loss_ml, a.timestamp, true⟩

/-- The per-entry effect of the acknowledge mutation on the registry:
set the flag on the entry with the matching id, leave the rest alone. -/
def ack_entry (alert_id : String) (p : String × AlertMessage) :
    String × AlertMessage :=
  if p.1 == alert_id then (p.1, set_acknowledged p.2) else p

/-- Endpoint acknowledge_alert: 404 when the alert id is absent from
active_alerts, else set its acknowledged flag to True (dict mutation,
modelled as rebuilding the association list). -/
def acknowledge_alert (active_alerts : List (String × AlertMessage))
    (alert_id : String) : Except ApiError (List (String × AlertMessage)) :=
  if active_alerts.any (fun p => p.1 == alert_id) then
    .ok (active_alerts.map (ack_entry alert_id))
  else .error (.notFound "Alert not found")

/-- A live websocket connection handle, identified by an opaque id. -/
structure Observer where
  id : Nat
  deriving DecidableEq, Repr

/-- ConnectionManager.broadcast: attempt send_text on every connection in
order; connections whose send raises are collected and then removed from
active_connections (disconnect removes the first occurrence if present).
send_fails says which observers raise on this send.  Returns the list of
observers that received the message and the new active_connections. -/
def broadcast (send_fails : Observer → Bool) (active_connections : List Observer) :
    List Observer × List Observer :=
  let delivered := active_connections.filter (fun c => !(send_fails c))
  let disconnected := active_connections.filter send_fails
  (delivered, disconnected.foldl (fun conns c => conns.erase c) active_connections)

/-- The lines of continuous_monitoring_task updating a session's rollup
fields from a new reading: total_readings increments, max_blood_loss_ml
takes the max, and max_hemorrhage_level is replaced by the classified
level when current_level.value > max_hemorrhage_level.value — a Python
comparison of the enum members' underlying STRING values. -/
def update_session_rollup (session : MonitoringSession)
    (reading : BloodLossReading) : MonitoringSession :=
  let current_level := classify_blood_loss reading.blood_loss_ml
  let new_max_level :=
    if pyStrGt current_level.value session.max_hemorrhage_level.value then
      current_level
    else session.max_hemorrhage_level
  ⟨session.session_id, session.patient_id, session.is_active,
    session.total_readings + 1,
    max session.max_blood_loss_ml reading.blood_loss_ml,
    new_max_level⟩

/-- The retention horizon of the background cleanup, timedelta(hours=24)
in seconds. -/
def RETENTION_HORIZON : ℤ := 24 * 60 * 60

/-- The global mutable monitoring state (class MonitoringState), restricted
to the parts the embedded operations touch; patients carries only the
registered ids. -/
structure MonitoringState where
  patients : List String
  readings_history : List (String × List BloodLossReading)
  active_alerts : List (String × AlertMessage)
  active_connections : List Observer
  deriving DecidableEq, Repr

/-- The field overwrites at the top of the add_reading endpoint:
reading.patient_id = patient_id; reading.timestamp = datetime.now(). -/
def set_reading_fields (reading : BloodLossReading) (patient_id : String)
    (now : ℤ) : BloodLossReading :=
  ⟨patient_id, now, reading.blood_loss_ml, reading.rate_ml_per_min⟩

/-- Endpoint add_reading (manual entry): 404 for unknown patients; else
overwrite the reading's patient_id and timestamp, append it to the
subject's history, run the classifier on the history minus the new entry,
store and broadcast any alert, broadcast the reading, and return it.
No eviction happens on this path.  now is the server clock (seconds). -/
def add_reading (now : ℤ) (send_fails : Observer → Bool) (st : MonitoringState)
    (patient_id : String) (reading : BloodLossReading) :
    Except ApiError (MonitoringState × BloodLossReading) :=
  if st.patients.any (fun p => p == patient_id) then
    let stored := set_reading_fields reading patient_id now
    let hist1 := dict_get st.readings_history patient_id [] ++ [stored]
    let previous_readings := hist1.dropLast
    let alert := should_trigger_alert now stored previous_readings
    let step1 : List (String × AlertMessage) × List Observer :=
      match alert with
      | some a => (dict_set st.active_alerts a.alert_id a,
          (broadcast send_fails st.active_connections).2)
      | none => (st.active_alerts, st.active_connections)
    let conns2 := (broadcast send_fails step1.2).2
    .ok (⟨st.patients, dict_set st.readings_history patient_id hist1,
      step1.1, conns2⟩, stored)
  else .error (.notFound "Patient not found")

/-- The body of one active session's processing inside the background
cycle, given the acquired reading: append to history, update the session
rollup, run the classifier, store and broadcast any alert, broadcast the
reading, then evict history entries with timestamp ≤ now − 24h (the code
keeps entries with timestamp > cutoff). -/
def process_session (now : ℤ) (send_fails : Observer → Bool)
    (st : MonitoringState) (session : MonitoringSession)
    (reading : BloodLossReading) : MonitoringState × MonitoringSession :=
  let patient_id := session.patient_id
  let hist1 := dict_get st.readings_history patient_id [] ++ [reading]
  let session1 := update_session_rollup session reading
  let previous_readings := hist1.dropLast
  let alert := should_trigger_alert now reading previous_readings
  let step1 : List (String × AlertMessage) × List Observer :=
    match alert with
    | some a => (dict_set st.active_alerts a.alert_id a,
        (broadcast send_fails st.active_connections).2)
    | none => (st.active_alerts, st.active_connections)
  let conns2 := (broadcast send_fails step1.2).2
  let cutoff_time := now - RETENTION_HORIZON
  let hist2 := hist1.filter (fun r => cutoff_time < r.timestamp)
  (⟨st.patients, dict_set st.readings_history patient_id hist2,
    step1.1, conns2⟩, session1)

/-- How one iteration of the while-loop in continuous_monitoring_task
ended: completed normally, or an exception escaped the for-loop and was
caught by the surrounding except handler (which logs, sleeps 5 s and lets
the while-loop continue — the loop itself never exits). -/
inductive CycleResult where
  | completed
  | faulted
  deriving DecidableEq, Repr

/-- The outcome of one sampling cycle: the final state, the sessions list
after the cycle, the ids of sessions whose body ran to completion, and
whether the cycle faulted. -/
structure CycleRun where
  st : MonitoringState
  sessions : List MonitoringSession
  processed : List String
  result : CycleResult
  deriving DecidableEq, Repr

/-- One iteration of the for-loop of continuous_monitoring_task over the
active sessions, inside the single try block: inactive sessions are
skipped; a session whose processing raises (modelled by the predicate
raises) aborts the loop — no later session is touched — and the except
handler marks the cycle faulted; a session with no available reading is
skipped; otherwise its body runs via process_session. -/
def run_cycle (now : ℤ) (send_fails : Observer → Bool)
    (raises : MonitoringSession → Bool)
    (get_reading : String → Option BloodLossReading) :
    MonitoringState → List MonitoringSession → CycleRun
  | st, [] => ⟨st, [], [], .completed⟩
  | st, s :: rest =>
    if s.is_active = false then
      let r := run_cycle now send_fails raises get_reading st rest
      ⟨r.st, s :: r.sessions, r.processed, r.result⟩
    else if raises s then
      ⟨st, s :: rest, [], .faulted⟩
    else
      match get_reading s.patient_id with
      | none =>
        let r := run_cycle now send_fails raises get_reading st rest
        ⟨r.st, s :: r.sessions, r.processed, r.result⟩
      | some reading =>
        let p := process_session now send_fails st s reading
        let r := run_cycle now send_fails raises get_reading p.1 rest
        ⟨r.st, p.2 :: r.sessions, s.session_id :: r.processed, r.result⟩

/-- A fresh session (max_hemorrhage_level at its initial value normal). -/
def C1session : MonitoringSession := ⟨"sess1", "p1", true, 0, 0, HemorrhageLevel.normal⟩

/-- A reading whose blood loss (2000 mL) classifies as critical. -/
def C1reading : BloodLossReading := ⟨"p1", 0, 2000, 0⟩

/-- The three-entry history of the spec's escalation example:
losses 100, 120, 140 at 5-minute spacing. -/
def C6history : List BloodLossReading :=
  [⟨"p1", 0, 100, 0⟩, ⟨"p1", 300, 120, 0⟩, ⟨"p1", 600, 140, 0⟩]

/-- The current reading of the escalation example: loss 400 at the 4th
point. -/
def C6current : BloodLossReading := ⟨"p1", 900, 400, 0⟩

/-- An unacknowledged alert used for the C7 witness. -/
def C7alert : AlertMessage :=
  ⟨"a1", "p1", .warning, "Minor hemorrhage detected - monitor closely",
    .minor, 150, 100, false⟩

/-- A registry holding the one alert, unacknowledged. -/
def C7reg : List (String × AlertMessage) := [("a1", C7alert)]

/-- The registry after the first acknowledge. -/
def C7reg1 : List (String × AlertMessage) := [("a1", set_acknowledged C7alert)]

/-- An already-stored reading far older than the retention horizon. -/
def C2old : BloodLossReading := ⟨"p1", 0, 50, 0⟩

/-- A manually submitted reading body (client-supplied fields). -/
def C2new : BloodLossReading := ⟨"evil", 123, 60, 0⟩

/-- A state holding subject p1 with the stale reading already in its
history. -/
def C2state : MonitoringState := ⟨["p1"], [("p1", [C2old])], [], []⟩

/-- An empty-history state for subject p1. -/
def C2state0 : MonitoringState := ⟨["p1"], [], [], []⟩

/-- A fresh reading sampled at time 0. -/
def C2read0 : BloodLossReading := ⟨"p1", 0, 50, 0⟩

/-- Three active monitoring sessions for the C3 scenario. -/
def C3s0 : MonitoringSession := ⟨"sess0", "p1", true, 0, 0, HemorrhageLevel.normal⟩

/-- The session whose processing raises in the C3 scenario. -/
def C3s1 : MonitoringSession := ⟨"sess1", "p1", true, 0, 0, HemorrhageLevel.normal⟩

/-- A session iterated after the failing one in the C3 scenario. -/
def C3s2 : MonitoringSession := ⟨"sess2", "p2", true, 0, 0, HemorrhageLevel.normal⟩

/-- The state for the C3 scenario. -/
def C3state : MonitoringState := ⟨["p1", "p2"], [], [], []⟩

/-- A reading source that always has data in the C3 scenario. -/
def C3reader : String → Option BloodLossReading := fun pid => some ⟨pid, 0, 50, 0⟩

/-- The fault model of the C3 scenario: processing session sess1 raises. -/
def C3raises : MonitoringSession → Bool := fun s => s.session_id == "sess1"

/-- First alert-generating reading of the C4 scenario (moderate loss),
arriving at unix second 1000. -/
def C4r1 : BloodLossReading := ⟨"p1", 1000, 300, 0⟩

/-- Second alert-generating reading for the same subject within the same
unix second. -/
def C4r2 : BloodLossReading := ⟨"p1", 1000, 600, 0⟩

/-- The alert the classifier produces for C4r1. -/
def C4a1 : AlertMessage :=
  ⟨"alert_p1_1000", "p1", .info, "Moderate hemorrhage - consider intervention",
    .moderate, 300, 1000, false⟩

/-- The alert the classifier produces for C4r2: a distinct alert carrying
the same alert_id. -/
def C4a2 : AlertMessage :=
  ⟨"alert_p1_1000", "p1", .info, "MAJOR HEMORRHAGE - immediate intervention required",
    .major, 600, 1000, false⟩

/-- The failing-send model of the C8 scenario: observer 2 raises on
send. -/
def C8fails : Observer → Bool := fun c => c.id == 2

/-- A registry state for the C9 witness: subject p1, empty history. -/
def C9state : MonitoringState := ⟨["p1"], [], [], []⟩

/-- The submitted reading body of the C9 witness, with a client-supplied
patient id and timestamp. -/
def C9body : BloodLossReading := ⟨"evil", 123, 50, 0⟩

/-- The reading actually stored by the C9 witness submission. -/
def C9stored : BloodLossReading := ⟨"p1", 500, 50, 0⟩

/-- The state after the C9 witness submission. -/
def C9after : MonitoringState := ⟨["p1"], [("p1", [C9stored])], [], []⟩

/-! Theorems checking the specification's claims. -/

/-- For every severity level l, the Python string comparison
l.value > "normal" is false: "normal" is lexicographically the largest of
the five underlying enum values. -/
theorem pyStrGt_value_normal_false (l : HemorrhageLevel) :
    pyStrGt l.value HemorrhageLevel.normal.value = false := by
  cases l <;> decide


/-- C1: the claim fails on the code.  The max-severity update compares the
enum members' underlying string values, under which "normal" is the
largest; hence max_hemorrhage_level can never advance past its initial
value normal, in particular a critical reading (2000 mL) leaves the rollup
at normal instead of raising it to critical. -/
theorem C1_rollup_stuck_at_normal :
    (∀ (sid pid : String) (act : Bool) (tot : Nat) (ml : ℚ)
        (reading : BloodLossReading),
      (update_session_rollup ⟨sid, pid, act, tot, ml, HemorrhageLevel.normal⟩
          reading).max_hemorrhage_level = HemorrhageLevel.normal) ∧
    (update_session_rollup C1session C1reading).max_hemorrhage_level
      = HemorrhageLevel.normal ∧
    classify_blood_loss C1reading.blood_loss_ml = HemorrhageLevel.critical := by
  refine ⟨?_, by decide, by decide⟩
  intro sid pid act tot ml reading
  simp [update_session_rollup, pyStrGt_value_normal_false]

/-- C5: classify_blood_loss is the inclusive-upper threshold lookup
Normal / Minor / Moderate / Major / Critical with boundaries at
100, 250, 500 and 1000 mL classifying into the lower band. -/
theorem C5_classify_bands (loss : ℚ) (h0 : 0 ≤ loss) :
    (loss ≤ 100 → classify_blood_loss loss = HemorrhageLevel.normal) ∧
    (100 < loss → loss ≤ 250 → classify_blood_loss loss = HemorrhageLevel.minor) ∧
    (250 < loss → loss ≤ 500 → classify_blood_loss loss = HemorrhageLevel.moderate) ∧
    (500 < loss → loss ≤ 1000 → classify_blood_loss loss = HemorrhageLevel.major) ∧
    (1000 < loss → classify_blood_loss loss = HemorrhageLevel.critical) := by
  unfold classify_blood_loss NORMAL_MAX MINOR_MAX MODERATE_MAX MAJOR_MAX
  refine ⟨fun h1 => ?_, fun h1 h2 => ?_, fun h1 h2 => ?_, fun h1 h2 => ?_,
    fun h1 => ?_⟩ <;> split_ifs <;> first | rfl | linarith

/-- Witness for C5 at the four boundary values and one point above. -/
theorem C5_classify_bands_witness :
    classify_blood_loss 100 = HemorrhageLevel.normal ∧
    classify_blood_loss 250 = HemorrhageLevel.minor ∧
    classify_blood_loss 500 = HemorrhageLevel.moderate ∧
    classify_blood_loss 1000 = HemorrhageLevel.major ∧
    classify_blood_loss 1001 = HemorrhageLevel.critical :=
  ⟨(C5_classify_bands 100 (by norm_num)).1 (by norm_num),
   (C5_classify_bands 250 (by norm_num)).2.1 (by norm_num) (by norm_num),
   (C5_classify_bands 500 (by norm_num)).2.2.1 (by norm_num) (by norm_num),
   (C5_classify_bands 1000 (by norm_num)).2.2.2.1 (by norm_num) (by norm_num),
   (C5_classify_bands 1001 (by norm_num)).2.2.2.2 (by norm_num)⟩


/-- C6: with at least 3 previous readings the alert type is Emergency
exactly when (current.loss − first-of-window.loss) / 15 exceeds 15 (fixed
15-minute divisor), else the rate-based assessment; with fewer than 3
previous readings no override is applied; and on the spec's example
(history losses 100, 120, 140, current 400) the produced alert has
type Emergency. -/
theorem C6_escalation_override (reading : BloodLossReading)
    (previous : List BloodLossReading) :
    (3 ≤ previous.length →
      alert_type_for reading previous =
        if 15 < (reading.blood_loss_ml -
            ((previous.drop (previous.length - 3)).map
              (fun r => r.blood_loss_ml)).headD 0) / 15
        then AlertType.emergency
        else assess_bleeding_rate reading.rate_ml_per_min
          (classify_blood_loss reading.blood_loss_ml)) ∧
    (previous.length < 3 →
      alert_type_for reading previous =
        assess_bleeding_rate reading.rate_ml_per_min
          (classify_blood_loss reading.blood_loss_ml)) ∧
    (should_trigger_alert 900 C6current C6history).map (fun a => a.alert_type)
      = some AlertType.emergency := by
  refine ⟨?_, ?_, ?_⟩
  · intro h
    have hlen : (previous.drop (previous.length - 3)).length = 3 := by
      rw [List.length_drop]; omega
    obtain ⟨a, b, c, e⟩ := List.length_eq_three.mp hlen
    simp [alert_type_for, e, h]
  · intro h
    have h3 : ¬ 3 ≤ previous.length := by omega
    simp [alert_type_for, h3]
  · simp [should_trigger_alert, C6current, C6history, alert_type_for,
      assess_bleeding_rate, classify_blood_loss, NORMAL_MAX, MINOR_MAX,
      MODERATE_MAX, MAJOR_MAX, mk_alert_id, alert_message_text]
    norm_num

/-- Witness for C6 on the spec's example history. -/
theorem C6_escalation_override_witness :
    alert_type_for C6current C6history = AlertType.emergency := by
  have h := (C6_escalation_override C6current C6history).1 (by simp [C6history])
  rw [h]
  norm_num [C6history, C6current]

/-- C10: classify_blood_loss is monotone: a larger loss never classifies
to a strictly lower severity rank. -/
theorem C10_classify_monotone (a b : ℚ) (h : a ≤ b) :
    (classify_blood_loss a).rank ≤ (classify_blood_loss b).rank := by
  unfold classify_blood_loss NORMAL_MAX MINOR_MAX MODERATE_MAX MAJOR_MAX
  split_ifs <;> simp only [HemorrhageLevel.rank] <;> first | omega | linarith

/-- Witness for C10 at losses 50 and 600. -/
theorem C10_classify_monotone_witness :
    (classify_blood_loss 50).rank ≤ (classify_blood_loss 600).rank :=
  C10_classify_monotone 50 600 (by norm_num)

/-- The acknowledge mutation does not change an entry's key. -/
theorem ack_entry_fst (aid : String) (p : String × AlertMessage) :
    (ack_entry aid p).1 = p.1 := by
  unfold ack_entry
  split <;> rfl

/-- The acknowledge mutation is idempotent on an entry. -/
theorem ack_entry_idem (aid : String) (p : String × AlertMessage) :
    ack_entry aid (ack_entry aid p) = ack_entry aid p := by
  unfold ack_entry
  by_cases h : (p.1 == aid) = true <;> simp [h, set_acknowledged]

/-- C7: acknowledging an absent alert id fails with NotFound; on success
every entry with the acknowledged id has its flag set to true, and
acknowledging again on the resulting registry succeeds and returns the
same registry (idempotence). -/
theorem C7_acknowledge_semantics (alerts : List (String × AlertMessage))
    (aid : String) :
    ((∀ p ∈ alerts, p.1 ≠ aid) →
      acknowledge_alert alerts aid = .error (.notFound "Alert not found")) ∧
    (∀ alerts', acknowledge_alert alerts aid = .ok alerts' →
      (∀ p ∈ alerts', p.1 = aid → p.2.acknowledged = true) ∧
      acknowledge_alert alerts' aid = .ok alerts') := by
  constructor
  · intro h
    have hany : alerts.any (fun p => p.1 == aid) = false := by
      simp only [List.any_eq_false]
      intro p hp
      simp [h p hp]
    simp [acknowledge_alert, hany]
  · intro alerts' hok
    by_cases hc : alerts.any (fun p => p.1 == aid) = true
    · unfold acknowledge_alert at hok
      rw [if_pos hc] at hok
      injection hok with hok
      subst hok
      constructor
      · intro p hp hpk
        obtain ⟨q, hq, rfl⟩ := List.mem_map.mp hp
        by_cases hqk : (q.1 == aid) = true
        · simp [ack_entry, hqk, set_acknowledged]
        · rw [ack_entry, if_neg (by simp [hqk])] at hpk
          rw [hpk] at hqk
          simp at hqk
      · have hany : (alerts.map (ack_entry aid)).any (fun p => p.1 == aid)
            = alerts.any (fun p => p.1 == aid) := by
          rw [List.any_map]
          have hf : ((fun p : String × AlertMessage => p.1 == aid) ∘ ack_entry aid)
              = fun p => p.1 == aid := by
            funext q
            simp [Function.comp, ack_entry_fst]
          rw [hf]
        unfold acknowledge_alert
        rw [if_pos (by rw [hany]; exact hc)]
        have hcomp : ack_entry aid ∘ ack_entry aid = ack_entry aid := by
          funext p
          simp [Function.comp, ack_entry_idem]
        rw [List.map_map, hcomp]
    · exact absurd hok (by simp [acknowledge_alert, hc])


/-- Witness for C7: NotFound on the empty registry; after acknowledging
"a1" the flag is true and re-acknowledging returns the registry
unchanged. -/
theorem C7_acknowledge_semantics_witness :
    acknowledge_alert [] "a1" = Except.error (ApiError.notFound "Alert not found") ∧
    (∀ p ∈ C7reg1, p.1 = "a1" → p.2.acknowledged = true) ∧
    acknowledge_alert C7reg1 "a1" = Except.ok C7reg1 :=
  ⟨(C7_acknowledge_semantics [] "a1").1 (by simp),
   (C7_acknowledge_semantics C7reg "a1").2 C7reg1 (by rfl)⟩


/-- Removing, one by one, the elements of d from a duplicate-free list acc
(the disconnect loop of broadcast) is the same as filtering d out. -/
theorem foldl_erase_eq_filter {α : Type} [DecidableEq α] (d acc : List α)
    (h : acc.Nodup) :
    d.foldl (fun a c => a.erase c) acc = acc.filter (fun c => !(d.contains c)) := by
  induction d generalizing acc with
  | nil => simp
  | cons b d ih =>
    simp only [List.foldl_cons]
    rw [ih (acc.erase b) (h.erase b)]
    rw [h.erase_eq_filter b, List.filter_filter]
    apply List.filter_congr
    intro x hx
    simp [List.contains, List.elem_eq_mem, List.mem_cons, Bool.not_or,
      bne, beq_eq_decide, Bool.and_comm]
    congr

/-- On a member of l, contains on the filtered list evaluates the filter
predicate. -/
theorem contains_filter_eq {α : Type} [DecidableEq α] (p : α → Bool) (l : List α)
    (x : α) (hx : x ∈ l) : (l.filter p).contains x = p x := by
  cases hf : p x with
  | true =>
    have hm : x ∈ l.filter p := List.mem_filter.mpr ⟨hx, hf⟩
    simp [List.contains, List.elem_eq_mem, hm, hf]
  | false =>
    have hm : x ∉ l.filter p := fun hmem => by
      have h2 := (List.mem_filter.mp hmem).2
      rw [hf] at h2
      exact Bool.false_ne_true h2
    simp [List.contains, List.elem_eq_mem, hm, hf]

/-- Looking up a key right after dict-assigning it returns the assigned
value. -/
theorem dict_get_set {α : Type} (d : List (String × α)) (k : String) (v : α)
    (dflt : α) : dict_get (dict_set d k v) k dflt = v := by
  induction d with
  | nil => simp [dict_set, dict_get]
  | cons p t ih =>
    unfold dict_set at ih ⊢
    cases hk : (p.1 == k) with
    | true =>
      rw [if_pos (by simp [List.any_cons, hk])]
      simp only [List.map_cons, if_pos hk]
      unfold dict_get
      rw [List.find?_cons_of_pos _ (by simp)]
    | false =>
      cases ht : (t.any fun q => q.1 == k) with
      | true =>
        have hk2 : ¬ (p.1 == k) = true := by simp [hk]
        rw [if_pos (by simp [List.any_cons, hk, ht])]
        simp only [List.map_cons, if_neg hk2]
        unfold dict_get at ih ⊢
        rw [List.find?_cons_of_neg _ (by simp [hk])]
        rw [if_pos ht] at ih
        exact ih
      | false =>
        rw [if_neg (by simp [List.any_cons, hk, ht])]
        unfold dict_get at ih ⊢
        rw [List.cons_append, List.find?_cons_of_neg _ (by simp [hk])]
        rw [if_neg (by simp [ht])] at ih
        exact ih

/-- C8: broadcast delivers to exactly the observers whose send does not
fail and the surviving live set is exactly those observers; in the
3-observer scenario where observer 2 raises, the publish yields deliveries
to observers 1 and 3, observer 2 is detached, and a second publish reaches
exactly the remaining two. -/
theorem C8_broadcast_isolation (send_fails : Observer → Bool)
    (conns : List Observer) (h : conns.Nodup) :
    (broadcast send_fails conns).1 = conns.filter (fun c => !(send_fails c)) ∧
    (broadcast send_fails conns).2 = conns.filter (fun c => !(send_fails c)) ∧
    broadcast C8fails [⟨1⟩, ⟨2⟩, ⟨3⟩] = ([⟨1⟩, ⟨3⟩], [⟨1⟩, ⟨3⟩]) ∧
    broadcast C8fails [⟨1⟩, ⟨3⟩] = ([⟨1⟩, ⟨3⟩], [⟨1⟩, ⟨3⟩]) := by
  refine ⟨rfl, ?_, by decide, by decide⟩
  show (conns.filter send_fails).foldl (fun a c => a.erase c) conns
      = conns.filter fun c => !(send_fails c)
  rw [foldl_erase_eq_filter _ _ h]
  apply List.filter_congr
  intro x hx
  rw [contains_filter_eq send_fails conns x hx]

/-- Witness for C8 on the concrete 3-observer scenario. -/
theorem C8_broadcast_isolation_witness :
    broadcast C8fails [⟨1⟩, ⟨2⟩, ⟨3⟩] = ([⟨1⟩, ⟨3⟩], [⟨1⟩, ⟨3⟩]) :=
  (C8_broadcast_isolation C8fails [⟨1⟩, ⟨2⟩, ⟨3⟩] (by decide)).2.2.1

/-- C9: whenever the manual submission endpoint accepts a reading, the
stored reading carries the path patient id and the server clock as its
timestamp — never the client-supplied values — and it is the last entry of
the stored history. -/
theorem C9_submit_overwrites_fields (now : ℤ) (send_fails : Observer → Bool)
    (st : MonitoringState) (patient_id : String) (reading : BloodLossReading)
    (st2 : MonitoringState) (stored : BloodLossReading)
    (h : add_reading now send_fails st patient_id reading = .ok (st2, stored)) :
    stored.patient_id = patient_id ∧ stored.timestamp = now ∧
    (dict_get st2.readings_history patient_id []).getLast? = some stored := by
  unfold add_reading at h
  by_cases hp : st.patients.any (fun p => p == patient_id) = true
  · rw [if_pos hp] at h
    injection h with h
    injection h with h1 h2
    subst h1
    subst h2
    refine ⟨rfl, rfl, ?_⟩
    rw [dict_get_set, List.getLast?_concat]
  · rw [if_neg hp] at h
    exact absurd h (by simp)

/-- Witness for C9: submitting a body with patient id "evil" and
timestamp 123 to path p1 at server time 500 stores patient p1 at
timestamp 500. -/
theorem C9_submit_overwrites_fields_witness :
    C9stored.patient_id = "p1" ∧ C9stored.timestamp = 500 ∧
    (dict_get C9after.readings_history "p1" []).getLast? = some C9stored :=
  C9_submit_overwrites_fields 500 (fun _ => false) C9state "p1" C9body C9after
    C9stored (by rfl)

/-- C2 counterexample: the manual submission endpoint appends without
evicting, so a stored entry older than the retention horizon (timestamp 0
at server time 200000) is still in the history right after the append. -/
theorem C2_manual_append_keeps_stale_entry :
    (add_reading 200000 (fun _ => false) C2state "p1" C2new).toOption.map
        (fun r => dict_get r.1.readings_history "p1" []) =
      some [C2old, ⟨"p1", 200000, 60, 0⟩] ∧
    C2old.timestamp < 200000 - RETENTION_HORIZON := by
  exact ⟨rfl, by decide⟩

/-- C2 (amended): after an append performed by the background sampling
cycle, every entry remaining in the subject's stored history is strictly
newer than now minus the 24-hour retention horizon; the manual submission
endpoint performs no such eviction (see the counterexample). -/
theorem C2_cycle_eviction_bound (now : ℤ) (send_fails : Observer → Bool)
    (st : MonitoringState) (session : MonitoringSession)
    (reading : BloodLossReading) (r : BloodLossReading)
    (hr : r ∈ dict_get
        (process_session now send_fails st session reading).1.readings_history
        session.patient_id []) :
    now - RETENTION_HORIZON < r.timestamp := by
  simp only [process_session] at hr
  rw [dict_get_set] at hr
  exact of_decide_eq_true (List.mem_filter.mp hr).2

/-- Witness for C2 on a concrete background-cycle append at time 0. -/
theorem C2_cycle_eviction_bound_witness :
    (0 : ℤ) - RETENTION_HORIZON < C2read0.timestamp :=
  C2_cycle_eviction_bound 0 (fun _ => false) C2state0 C1session C2read0 C2read0
    (by decide)

/-- C4: the claim fails on the code.  Two alerts generated for the same
subject within the same unix second carry the same alert_id
(int-second truncation), and storing the second into the registry dict
overwrites the first, which is lost. -/
theorem C4_alert_id_collision_overwrites :
    should_trigger_alert 1000 C4r1 [] = some C4a1 ∧
    should_trigger_alert 1000 C4r2 [C4r1] = some C4a2 ∧
    C4a1 ≠ C4a2 ∧
    C4a1.alert_id = C4a2.alert_id ∧
    dict_set (dict_set [] C4a1.alert_id C4a1) C4a2.alert_id C4a2
      = [("alert_p1_1000", C4a2)] ∧
    ("alert_p1_1000", C4a1) ∉
      dict_set (dict_set [] C4a1.alert_id C4a1) C4a2.alert_id C4a2 := by
  refine ⟨rfl, rfl, by decide, rfl, rfl, by decide⟩

/-- C3 counterexample: with two active sessions where processing the
first raises, the single try/except around the whole for-loop aborts the
cycle — the second session is not processed in that cycle. -/
theorem C3_fault_skips_later_sessions :
    (run_cycle 0 (fun _ => false) C3raises C3reader C3state [C3s1, C3s2]).result
      = CycleResult.faulted ∧
    (run_cycle 0 (fun _ => false) C3raises C3reader C3state [C3s1, C3s2]).processed
      = [] ∧
    "sess2" ∉
      (run_cycle 0 (fun _ => false) C3raises C3reader C3state [C3s1, C3s2]).processed := by
  refine ⟨by decide, by decide, by decide⟩

/-- Unfolding of one cycle step on an active, non-raising session. -/
theorem run_cycle_cons_active (now : ℤ) (send_fails : Observer → Bool)
    (raises : MonitoringSession → Bool)
    (get_reading : String → Option BloodLossReading)
    (s : MonitoringSession) (rest : List MonitoringSession)
    (st : MonitoringState) (ha : ¬ s.is_active = false) (hs : raises s = false) :
    run_cycle now send_fails raises get_reading st (s :: rest) =
      match get_reading s.patient_id with
      | none =>
        let r := run_cycle now send_fails raises get_reading st rest
        ⟨r.st, s :: r.sessions, r.processed, r.result⟩
      | some reading =>
        let p := process_session now send_fails st s reading
        let r := run_cycle now send_fails raises get_reading p.1 rest
        ⟨r.st, p.2 :: r.sessions, s.session_id :: r.processed, r.result⟩ := by
  rw [run_cycle, if_neg ha, hs]
  rfl

/-- C3 (amended): a failure while processing one active session aborts
the remainder of that cycle: the cycle ends faulted (caught by the
except handler, which backs off and lets the loop continue — the loop
never exits), sessions iterated before the failing one are processed
exactly as they would be in a cycle without the failure, and every active
session with an available reading among them is indeed processed; the
sessions after the failing one contribute nothing to the cycle. -/
theorem C3_fault_aborts_rest_of_cycle (now : ℤ) (send_fails : Observer → Bool)
    (raises : MonitoringSession → Bool)
    (get_reading : String → Option BloodLossReading)
    (pre post : List MonitoringSession) (sfail : MonitoringSession)
    (hact : sfail.is_active = true) (hf : raises sfail = true) :
    ∀ st : MonitoringState, (∀ s ∈ pre, raises s = false) →
      (run_cycle now send_fails raises get_reading st (pre ++ sfail :: post)).result
        = CycleResult.faulted ∧
      (run_cycle now send_fails raises get_reading st (pre ++ sfail :: post)).processed
        = (run_cycle now send_fails raises get_reading st pre).processed ∧
      ∀ s ∈ pre, s.is_active = true → (get_reading s.patient_id).isSome = true →
        s.session_id ∈
          (run_cycle now send_fails raises get_reading st (pre ++ sfail :: post)).processed := by
  induction pre with
  | nil =>
    intro st hpre
    refine ⟨?_, ?_, by simp⟩ <;> simp [run_cycle, hact, hf]
  | cons s pre ih =>
    intro st hpre
    have hs : raises s = false := hpre s (List.mem_cons_self _ _)
    have hpre2 : ∀ t ∈ pre, raises t = false :=
      fun t ht => hpre t (List.mem_cons_of_mem _ ht)
    rw [List.cons_append]
    by_cases ha : s.is_active = false
    · simp only [run_cycle, if_pos ha]
      refine ⟨(ih st hpre2).1, (ih st hpre2).2.1, ?_⟩
      intro t ht hact2 hread
      rcases List.mem_cons.mp ht with rfl | ht2
      · rw [hact2] at ha
        exact absurd ha (by simp)
      · exact (ih st hpre2).2.2 t ht2 hact2 hread
    · rw [run_cycle_cons_active now send_fails raises get_reading s
          (pre ++ sfail :: post) st ha hs,
        run_cycle_cons_active now send_fails raises get_reading s pre st ha hs]
      cases hread0 : get_reading s.patient_id with
      | none =>
        refine ⟨(ih st hpre2).1, (ih st hpre2).2.1, ?_⟩
        intro t ht hact2 hread
        rcases List.mem_cons.mp ht with rfl | ht2
        · rw [hread0] at hread
          exact absurd hread (by simp)
        · exact (ih st hpre2).2.2 t ht2 hact2 hread
      | some reading =>
        refine ⟨(ih _ hpre2).1, ?_, ?_⟩
        · show s.session_id ::
              (run_cycle now send_fails raises get_reading
                (process_session now send_fails st s reading).1
                (pre ++ sfail :: post)).processed
            = s.session_id ::
              (run_cycle now send_fails raises get_reading
                (process_session now send_fails st s reading).1 pre).processed
          rw [(ih _ hpre2).2.1]
        · intro t ht hact2 hread
          rcases List.mem_cons.mp ht with rfl | ht2
          · exact List.mem_cons_self _ _
          · exact List.mem_cons_of_mem _ ((ih _ hpre2).2.2 t ht2 hact2 hread)

/-- Witness for C3: a concrete run with a processed session before the
failing one ends faulted. -/
theorem C3_fault_aborts_rest_of_cycle_witness :
    (run_cycle 0 (fun _ => false) C3raises C3reader C3state
        ([C3s0] ++ C3s1 :: [C3s2])).result = CycleResult.faulted :=
  (C3_fault_aborts_rest_of_cycle 0 (fun _ => false) C3raises C3reader
    [C3s0] [C3s2] C3s1 (by decide) (by decide) C3state (by decide)).1

end HemoDrop
